import Mathlib

/-!
Verification of the mobile-post-office backend: a shallow embedding of the
response envelope and global exception filter (src/common/dto/api-response.dto.ts,
src/common/filters/api-exception.filter.ts), together with the validators,
paginator, language resolver, sort resolver and bulk-import pipeline described
by the design document and exercised by the end-to-end test suite.
-/

namespace MobilePostOffice

/-- Modelled from the spec: error-code constants of common/constants/error-codes.ts
(the file is referenced by the sources but absent); values follow the error-code
hierarchy table of the repository README. -/
def MISSING_REQUIRED_FIELD : String := "0101"

def NO_UPDATABLE_FIELDS : String := "0102"

def INVALID_PARAMETER_FORMAT : String := "0103"

def INVALID_TIME_FORMAT : String := "0104"

def INVALID_LANGUAGE : String := "0105"

def INVALID_NUMERIC_VALUE : String := "0106"

def RECORD_NOT_FOUND : String := "0201"

def DUPLICATE_RECORD : String := "0301"

def SERVER_ERROR : String := "0401"

def UNAUTHORIZED : String := "0501"

/-- Modelled from the spec: the ERROR_MESSAGES table of
common/constants/error-codes.ts, texts per the README error-code table. -/
def ERROR_MESSAGES (c : String) : Option String :=
  if c = MISSING_REQUIRED_FIELD then some "Missing required field(s)"
  else if c = NO_UPDATABLE_FIELDS then some "No updatable fields provided"
  else if c = INVALID_PARAMETER_FORMAT then some "Invalid parameter format or limit exceeded"
  else if c = INVALID_TIME_FORMAT then
    some "Invalid time format (must be HH:MM with valid time 00:00-23:59)"
  else if c = INVALID_LANGUAGE then some "Invalid lang value"
  else if c = INVALID_NUMERIC_VALUE then some "Invalid numeric value or out of range"
  else if c = RECORD_NOT_FOUND then some "Record not found"
  else if c = DUPLICATE_RECORD then some "Duplicate record"
  else if c = SERVER_ERROR then some "Database or internal server error"
  else if c = UNAUTHORIZED then some "Unauthorized"
  else none

/-- JavaScript `a || b` on an optional string: an absent or empty string falls
back to the default. -/
def jsOr (a : Option String) (d : String) : String :=
  match a with
  | some s => if s = "" then d else s
  | none => d

/-- Header of every API response (api-response.dto.ts, class ApiResponseHeader).
An `Option` field models a property that the constructor may leave unset, in
which case JSON serialisation omits it. -/
structure ApiResponseHeader where
  success : Bool
  message : Option String
  err_code : Option String
  err_msg : Option String
deriving DecidableEq

/-- Embedding of the private ApiResponseHeader constructor
(api-response.dto.ts lines 18-35). -/
def mkHeader (success : Bool) (message errCode errMsg : Option String) : ApiResponseHeader :=
  if success then
    { success := true
      message := some (jsOr message "Operation successful")
      err_code := none
      err_msg := none }
  else
    { success := false
      message := none
      err_code := some (jsOr errCode SERVER_ERROR)
      err_msg := some (jsOr errMsg (jsOr (ERROR_MESSAGES (jsOr errCode SERVER_ERROR)) "Unknown error")) }

/-- ApiResponseHeader.success (api-response.dto.ts line 37). -/
def headerSuccess (msg : String) : ApiResponseHeader :=
  mkHeader true (some msg) none none

/-- ApiResponseHeader.error (api-response.dto.ts line 41). -/
def headerError (errCode : String) (errMsg : Option String) : ApiResponseHeader :=
  mkHeader false none (some errCode) errMsg

/-- Pagination metadata returned with list responses. -/
structure PageMeta where
  total : Nat
  page : Nat
  limit : Nat
  totalPages : Nat
deriving DecidableEq

/-- Success response shape (api-response.dto.ts, class ApiSuccessResponse):
header, result, and an optional meta block. -/
structure ApiSuccessResponse (T : Type) where
  header : ApiResponseHeader
  result : T
  meta : Option PageMeta

/-- Error response shape (api-response.dto.ts, class ApiErrorResponse): a header
only, structurally without any result field. -/
structure ApiErrorResponse where
  header : ApiResponseHeader
deriving DecidableEq

/-- Union of the two response shapes (api-response.dto.ts, type ApiResponse). -/
inductive ApiResponse (T : Type) where
  | success (r : ApiSuccessResponse T)
  | error (e : ApiErrorResponse)

/-- Factory ApiResponse.success (api-response.dto.ts lines 87-93). -/
def apiSuccess {T : Type} (msg : String) (result : T) (meta : Option PageMeta) :
    ApiSuccessResponse T :=
  { header := headerSuccess msg, result := result, meta := meta }

/-- Factory ApiResponse.error (api-response.dto.ts lines 95-97). -/
def apiError (errCode : String) (errMsg : Option String) : ApiErrorResponse :=
  { header := headerError errCode errMsg }

/-- Header of either response shape. -/
def ApiResponse.headerOf {T : Type} : ApiResponse T → ApiResponseHeader
  | .success r => r.header
  | .error e => e.header

/-- Result carried by a response body: an error body carries none, structurally. -/
def resultOf {T : Type} : ApiResponse T → Option T
  | .success r => some r.result
  | .error _ => none

/-- Claim C1: response envelope exclusivity. Every header built with
success=true carries a message and never err_code or err_msg; every header
built with success=false carries err_code and err_msg and never message; an
error response body carries no result field, and a success body always carries
one. This holds for all operations and all error codes, since every response
of the program is produced through these constructors. -/
theorem c1_envelope_exclusivity :
    (∀ message errCode errMsg : Option String,
        (mkHeader true message errCode errMsg).success = true
      ∧ (mkHeader true message errCode errMsg).message.isSome = true
      ∧ (mkHeader true message errCode errMsg).err_code = none
      ∧ (mkHeader true message errCode errMsg).err_msg = none)
  ∧ (∀ message errCode errMsg : Option String,
        (mkHeader false message errCode errMsg).success = false
      ∧ (mkHeader false message errCode errMsg).err_code.isSome = true
      ∧ (mkHeader false message errCode errMsg).err_msg.isSome = true
      ∧ (mkHeader false message errCode errMsg).message = none)
  ∧ (∀ (T : Type) (c : String) (m : Option String),
        resultOf (T := T) (.error (apiError c m)) = none
      ∧ (apiError c m).header.success = false)
  ∧ (∀ (T : Type) (msg : String) (r : T) (meta : Option PageMeta),
        resultOf (.success (apiSuccess msg r meta)) = some r
      ∧ (apiSuccess msg r meta).header.success = true) := by
  refine ⟨?_, ?_, ?_, ?_⟩
  · intro message errCode errMsg
    simp [mkHeader]
  · intro message errCode errMsg
    simp [mkHeader]
  · intro T c m
    simp [resultOf, apiError, headerError, mkHeader]
  · intro T msg r meta
    simp [resultOf, apiSuccess, headerSuccess, mkHeader]

/-- Decides whether `needle` starts the list `hay` (character-wise). -/
def listStarts : List Char → List Char → Bool
  | _, [] => true
  | [], _ :: _ => false
  | a :: as, b :: bs => a = b && listStarts as bs

/-- Decides whether `needle` occurs contiguously inside `hay`. -/
def listHasSub : List Char → List Char → Bool
  | [], needle => needle.isEmpty
  | a :: as, needle => listStarts (a :: as) needle || listHasSub as needle

/-- JavaScript String.includes: substring containment. -/
def strIncludes (hay needle : String) : Bool :=
  listHasSub hay.data needle.data

/-- Message payload extracted from HttpException.getResponse()
(api-exception.filter.ts lines 32-38 and 52-54): a plain string response, an
object with a string or array message, or an object whose message is absent
or falsy. -/
inductive HttpPayload where
  | missing
  | txt (s : String)
  | obj (s : String)
  | arr (l : List String)
deriving DecidableEq

/-- Text the filter derives from an HttpException payload: a string response is
taken as is; an object message falls back to "Request failed" when falsy; an
array message is joined with a comma. -/
def httpMsgText : HttpPayload → String
  | .missing => "Request failed"
  | .txt s => s
  | .obj s => if s = "" then "Request failed" else s
  | .arr l => String.intercalate ", " l

/-- Exception reaching the global filter (api-exception.filter.ts catch):
a custom ApiException carrying its own status, code and message; a standard
HttpException carrying a status and a response payload; or any other thrown
value, inspected for driver-level connectivity markers (its optional code,
errno and message fields, and whether it is an Error instance). -/
inductive CaughtException where
  | api (status : Nat) (errCode : String) (errMsg : String)
  | http (status : Nat) (payload : HttpPayload)
  | other (code errno message : Option String) (isError : Bool)
deriving DecidableEq

/-- Storage-connectivity fault detection (api-exception.filter.ts lines 63-74):
ECONNREFUSED or PROTOCOL_CONNECTION_LOST codes, an ETIMEDOUT errno, or a
message containing "Connection lost" or "Can\x27t connect". -/
def connFault (code errno message : Option String) : Bool :=
  code = some "ECONNREFUSED" || code = some "PROTOCOL_CONNECTION_LOST" ||
  errno = some "ETIMEDOUT" ||
  (match message with
   | some m => strIncludes m "Connection lost" || strIncludes m "Can\x27t connect"
   | none => false)

/-- Embedding of ApiExceptionFilter.catch (api-exception.filter.ts lines 18-88):
maps the caught exception to the HTTP status sent and the error envelope. -/
def catchFilter : CaughtException → Nat × ApiErrorResponse
  | .api status errCode errMsg => (status, apiError errCode (some errMsg))
  | .http status payload =>
      let errCode :=
        if status = 400 then INVALID_PARAMETER_FORMAT
        else if status = 404 then RECORD_NOT_FOUND
        else if status = 409 then DUPLICATE_RECORD
        else if status = 401 then UNAUTHORIZED
        else SERVER_ERROR
      (status, apiError errCode (some (httpMsgText payload)))
  | .other code errno message isError =>
      if connFault code errno message then
        (503, apiError SERVER_ERROR (some "Database connection error. Please try again later."))
      else
        (500, apiError SERVER_ERROR (some (if isError then message.getD "" else "Unknown error")))

/-- Claim C10: every HttpException with status 400 that reaches the global
filter, including framework-level request-validation rejections not raised as
ApiException, is surfaced with err_code 0103 (invalid parameter), whatever
validation actually failed; it is never translated to the more specific codes
0104, 0105 or 0106. -/
theorem c10_bad_request_maps_0103 :
    ∀ payload : HttpPayload,
        ((catchFilter (.http 400 payload)).2.header.err_code = some INVALID_PARAMETER_FORMAT)
      ∧ ((catchFilter (.http 400 payload)).2.header.err_code ≠ some INVALID_TIME_FORMAT)
      ∧ ((catchFilter (.http 400 payload)).2.header.err_code ≠ some INVALID_LANGUAGE)
      ∧ ((catchFilter (.http 400 payload)).2.header.err_code ≠ some INVALID_NUMERIC_VALUE) := by
  intro payload
  refine ⟨?_, ?_, ?_, ?_⟩ <;>
    simp [catchFilter, apiError, headerError, mkHeader, jsOr,
      INVALID_PARAMETER_FORMAT, INVALID_TIME_FORMAT, INVALID_LANGUAGE, INVALID_NUMERIC_VALUE]

/-- Claim C9: a failure whose cause is a storage connectivity fault (connection
refused, connection lost, or timeout) is surfaced with status 503 and server
error code 0401, and its err_msg is the distinct transient message inviting the
caller to retry; the filter computes this single response and performs no
retry. -/
theorem c9_connectivity_degradation (code errno message : Option String) (isError : Bool)
    (h : connFault code errno message = true) :
      (catchFilter (.other code errno message isError)).1 = 503
    ∧ (catchFilter (.other code errno message isError)).2.header.err_code = some SERVER_ERROR
    ∧ (catchFilter (.other code errno message isError)).2.header.err_msg =
        some "Database connection error. Please try again later." := by
  refine ⟨?_, ?_, ?_⟩ <;> simp [catchFilter, h, apiError, headerError, mkHeader, jsOr]

/-- Witness for C9: a refused-connection driver fault concretely surfaces as
status 503 with code 0401 and the stable transient message. -/
theorem c9_connectivity_degradation_witness :
      (catchFilter (.other (some "ECONNREFUSED") none none false)).1 = 503
    ∧ (catchFilter (.other (some "ECONNREFUSED") none none false)).2.header.err_code =
        some SERVER_ERROR
    ∧ (catchFilter (.other (some "ECONNREFUSED") none none false)).2.header.err_msg =
        some "Database connection error. Please try again later." :=
  c9_connectivity_degradation (some "ECONNREFUSED") none none false (by decide)

/-- Counterexample to claim C5 as stated: a storage-driver exception that is no
connectivity fault is surfaced with its internal message reproduced verbatim in
err_msg, not replaced by a stable category-appropriate message
(api-exception.filter.ts lines 80-84). -/
theorem c5_verbatim_leak_cex :
      (catchFilter (.other none none
          (some "ER_BAD_FIELD: Unknown column secret_column in table mobile_posts")
          true)).2.header.err_msg =
        some "ER_BAD_FIELD: Unknown column secret_column in table mobile_posts"
    ∧ ("ER_BAD_FIELD: Unknown column secret_column in table mobile_posts" : String) ≠
        "Database or internal server error" := by
  refine ⟨by decide, by decide⟩

/-- Claim C5 as amended: every error surfaced through the filter carries exactly
one err_code and some err_msg and never a success message; connectivity faults
get the stable transient message; but a non-HTTP internal fault outside the
connectivity patterns has the underlying exception message surfaced verbatim. -/
theorem c5_error_surface :
    (∀ e : CaughtException,
        ((catchFilter e).2.header.err_code.isSome = true)
      ∧ ((catchFilter e).2.header.err_msg.isSome = true)
      ∧ ((catchFilter e).2.header.message = none)
      ∧ ((catchFilter e).2.header.success = false))
  ∧ (∀ code errno message : Option String, ∀ isError : Bool,
      connFault code errno message = true →
        (catchFilter (.other code errno message isError)).2.header.err_msg =
          some "Database connection error. Please try again later.")
  ∧ (∀ m : String, ∀ code errno : Option String,
      connFault code errno (some m) = false → m ≠ "" →
        (catchFilter (.other code errno (some m) true)).2.header.err_msg = some m) := by
  refine ⟨?_, ?_, ?_⟩
  · intro e
    cases e with
    | api status errCode errMsg =>
        simp [catchFilter, apiError, headerError, mkHeader, jsOr]
    | http status payload =>
        simp [catchFilter, apiError, headerError, mkHeader, jsOr]
    | other code errno message isError =>
        by_cases h : connFault code errno message = true <;>
          simp [catchFilter, h, apiError, headerError, mkHeader, jsOr]
  · intro code errno message isError h
    simp [catchFilter, h, apiError, headerError, mkHeader, jsOr]
  · intro m code errno h hm
    simp [catchFilter, h, apiError, headerError, mkHeader, jsOr, hm]

/-- Modelled from the spec: the status an ApiException is raised with for each
error code of the taxonomy (common/exceptions/api.exception.ts is absent from
the sources; the coupling follows the error-code-to-status table of the design
document and the statuses observed by the end-to-end tests). -/
def specStatus (c : String) : Nat :=
  if c = RECORD_NOT_FOUND then 404
  else if c = DUPLICATE_RECORD then 409
  else if c = SERVER_ERROR then 500
  else if c = UNAUTHORIZED then 401
  else 400

/-- Validation category of the error-code taxonomy. -/
def validationCodes : List String :=
  [MISSING_REQUIRED_FIELD, NO_UPDATABLE_FIELDS, INVALID_PARAMETER_FORMAT,
   INVALID_TIME_FORMAT, INVALID_LANGUAGE, INVALID_NUMERIC_VALUE]

/-- Every code of the error taxonomy. -/
def taxonomyCodes : List String :=
  validationCodes ++ [RECORD_NOT_FOUND, DUPLICATE_RECORD, SERVER_ERROR, UNAUTHORIZED]

/-- Modelled from the spec: the exceptions the program can hand to the global
filter. ApiException instances are raised by the service with the status
matching their code; plain HttpExceptions arise from the framework validation
pipe (400) and from routing (404); anything else reaches the filter as an
unknown thrown value. -/
def Raised : CaughtException → Prop
  | .api status errCode _ => errCode ∈ taxonomyCodes ∧ status = specStatus errCode
  | .http status _ => status = 400 ∨ status = 404
  | .other _ _ _ _ => True

/-- Status consistency required by the error-code-to-status mapping: a
validation code 01xx is 400-equivalent, 0201 is 404, 0301 is 409, 0401 is
500 or 503, 0501 is 401. -/
def codeStatusOK (status : Nat) (c : String) : Prop :=
    (c ∈ validationCodes → status = 400)
  ∧ (c = RECORD_NOT_FOUND → status = 404)
  ∧ (c = DUPLICATE_RECORD → status = 409)
  ∧ (c = SERVER_ERROR → status = 500 ∨ status = 503)
  ∧ (c = UNAUTHORIZED → status = 401)

/-- Claim C8: for every error response the program produces, the carried
err_code and the HTTP status sent agree with the mapping 01xx to 400, 0201 to
404, 0301 to 409, 0401 to 500 or 503, 0501 to 401. -/
theorem c8_code_status_mapping (e : CaughtException) (he : Raised e) :
    ∀ c : String, (catchFilter e).2.header.err_code = some c →
      codeStatusOK (catchFilter e).1 c := by
  intro c hc
  cases e with
  | api status errCode errMsg =>
      obtain ⟨hmem, hstat⟩ := he
      have hne : errCode ≠ "" := by
        revert hmem
        simp [taxonomyCodes, validationCodes, MISSING_REQUIRED_FIELD, NO_UPDATABLE_FIELDS,
          INVALID_PARAMETER_FORMAT, INVALID_TIME_FORMAT, INVALID_LANGUAGE,
          INVALID_NUMERIC_VALUE, RECORD_NOT_FOUND, DUPLICATE_RECORD, SERVER_ERROR,
          UNAUTHORIZED]
        rintro (rfl | rfl | rfl | rfl | rfl | rfl | rfl | rfl | rfl | rfl) <;> decide
      have hcode : (catchFilter (.api status errCode errMsg)).2.header.err_code =
          some errCode := by
        simp [catchFilter, apiError, headerError, mkHeader, jsOr, hne]
      rw [hcode, Option.some_inj] at hc
      subst hc
      subst hstat
      revert hmem
      simp only [catchFilter]
      simp [taxonomyCodes, validationCodes, MISSING_REQUIRED_FIELD, NO_UPDATABLE_FIELDS,
        INVALID_PARAMETER_FORMAT, INVALID_TIME_FORMAT, INVALID_LANGUAGE,
        INVALID_NUMERIC_VALUE, RECORD_NOT_FOUND, DUPLICATE_RECORD, SERVER_ERROR,
        UNAUTHORIZED]
      rintro (rfl | rfl | rfl | rfl | rfl | rfl | rfl | rfl | rfl | rfl) <;>
        simp [codeStatusOK, specStatus, validationCodes, MISSING_REQUIRED_FIELD,
          NO_UPDATABLE_FIELDS, INVALID_PARAMETER_FORMAT, INVALID_TIME_FORMAT,
          INVALID_LANGUAGE, INVALID_NUMERIC_VALUE, RECORD_NOT_FOUND, DUPLICATE_RECORD,
          SERVER_ERROR, UNAUTHORIZED]
  | http status payload =>
      rcases he with rfl | rfl <;>
      · simp [catchFilter, apiError, headerError, mkHeader, jsOr,
          INVALID_PARAMETER_FORMAT, RECORD_NOT_FOUND] at hc
        subst hc
        simp [codeStatusOK, catchFilter, validationCodes, MISSING_REQUIRED_FIELD,
          NO_UPDATABLE_FIELDS, INVALID_PARAMETER_FORMAT, INVALID_TIME_FORMAT,
          INVALID_LANGUAGE, INVALID_NUMERIC_VALUE, RECORD_NOT_FOUND, DUPLICATE_RECORD,
          SERVER_ERROR, UNAUTHORIZED]
  | other code errno message isError =>
      by_cases h : connFault code errno message = true <;>
      · simp [catchFilter, h, apiError, headerError, mkHeader, jsOr, SERVER_ERROR] at hc
        subst hc
        simp [codeStatusOK, catchFilter, h, validationCodes, MISSING_REQUIRED_FIELD,
          NO_UPDATABLE_FIELDS, INVALID_PARAMETER_FORMAT, INVALID_TIME_FORMAT,
          INVALID_LANGUAGE, INVALID_NUMERIC_VALUE, RECORD_NOT_FOUND, DUPLICATE_RECORD,
          SERVER_ERROR, UNAUTHORIZED]

/-- Witness for C8: a concrete not-found ApiException is surfaced with code
0201 at status 404, satisfying the mapping. -/
theorem c8_code_status_mapping_witness :
    codeStatusOK (catchFilter (.api 404 "0201" "Record not found")).1 "0201" :=
  c8_code_status_mapping (.api 404 "0201" "Record not found")
    (by constructor <;> decide) "0201" (by decide)

/-- Value of a decimal digit character, none for any other character. -/
def digitVal (c : Char) : Option Nat :=
  if c = '0' then some 0 else if c = '1' then some 1 else if c = '2' then some 2
  else if c = '3' then some 3 else if c = '4' then some 4 else if c = '5' then some 5
  else if c = '6' then some 6 else if c = '7' then some 7 else if c = '8' then some 8
  else if c = '9' then some 9 else none

/-- Character of a decimal digit (digits above 9 are clamped to 9). -/
def digitChar (d : Nat) : Char :=
  match d with
  | 0 => '0'
  | 1 => '1'
  | 2 => '2'
  | 3 => '3'
  | 4 => '4'
  | 5 => '5'
  | 6 => '6'
  | 7 => '7'
  | 8 => '8'
  | _ => '9'

/-- Modelled from the spec: validateTime of the validator set (the validator
module is absent from the sources). Succeeds exactly on strings of shape HH:MM
with HH in 00-23 and MM in 00-59; any other string fails with
InvalidTimeFormat, code 0104. -/
def validateTime (s : String) : Except String String :=
  match s.data with
  | [c1, c2, c3, c4, c5] =>
      match digitVal c1, digitVal c2, digitVal c4, digitVal c5 with
      | some a, some b, some m1, some m2 =>
          if c3 = ':' ∧ 10 * a + b ≤ 23 ∧ 10 * m1 + m2 ≤ 59 then Except.ok s
          else Except.error INVALID_TIME_FORMAT
      | _, _, _, _ => Except.error INVALID_TIME_FORMAT
  | _ => Except.error INVALID_TIME_FORMAT

/-- Canonical rendering of an hour-minute pair as a five-character HH:MM string. -/
def timeString (hh mm : Nat) : String :=
  ⟨[digitChar (hh / 10), digitChar (hh % 10), ':', digitChar (mm / 10), digitChar (mm % 10)]⟩

/-- Specification-side property: the string is HH:MM with HH in 00-23 and MM in
00-59. -/
def timeSpec (s : String) : Prop :=
  ∃ hh mm : Nat, hh ≤ 23 ∧ mm ≤ 59 ∧ s = timeString hh mm

theorem digitVal_digitChar (d : Nat) (h : d < 10) : digitVal (digitChar d) = some d := by
  interval_cases d <;> decide

theorem digitVal_eq_some {c : Char} {d : Nat} (h : digitVal c = some d) :
    d ≤ 9 ∧ c = digitChar d := by
  unfold digitVal at h
  split_ifs at h
  all_goals
    have hd := Option.some.inj h
    subst hd
    exact ⟨by decide, by assumption⟩

theorem validateTime_ok_iff (s : String) : validateTime s = Except.ok s ↔ timeSpec s := by
  constructor
  · intro h
    unfold validateTime at h
    split at h
    case _ c1 c2 c3 c4 c5 heq =>
      split at h
      case _ a b m1 m2 h1 h2 h4 h5 =>
        split_ifs at h with hcond
        obtain ⟨hc3, hhh, hmm⟩ := hcond
        obtain ⟨ha9, hc1⟩ := digitVal_eq_some h1
        obtain ⟨hb9, hc2⟩ := digitVal_eq_some h2
        obtain ⟨hm19, hc4⟩ := digitVal_eq_some h4
        obtain ⟨hm29, hc5⟩ := digitVal_eq_some h5
        refine ⟨10 * a + b, 10 * m1 + m2, hhh, hmm, ?_⟩
        have hda : (10 * a + b) / 10 = a := by omega
        have hma : (10 * a + b) % 10 = b := by omega
        have hdm : (10 * m1 + m2) / 10 = m1 := by omega
        have hmm2 : (10 * m1 + m2) % 10 = m2 := by omega
        cases s with
        | mk data =>
          simp only [String.data] at heq
          unfold timeString
          rw [hda, hma, hdm, hmm2]
          exact congrArg String.mk (heq.trans (by rw [hc1, hc2, hc3, hc4, hc5]))
      all_goals simp_all
    · simp_all
  · rintro ⟨hh, mm, hhle, hmle, rfl⟩
    have d1 : digitVal (digitChar (hh / 10)) = some (hh / 10) :=
      digitVal_digitChar _ (by omega)
    have d2 : digitVal (digitChar (hh % 10)) = some (hh % 10) :=
      digitVal_digitChar _ (by omega)
    have d3 : digitVal (digitChar (mm / 10)) = some (mm / 10) :=
      digitVal_digitChar _ (by omega)
    have d4 : digitVal (digitChar (mm % 10)) = some (mm % 10) :=
      digitVal_digitChar _ (by omega)
    unfold validateTime timeString
    simp only [String.data, d1, d2, d3, d4]
    split_ifs with hc
    · rfl
    · exact absurd ⟨by trivial, by omega, by omega⟩ hc

theorem validateTime_ok_or (s : String) :
    validateTime s = Except.ok s ∨ validateTime s = Except.error INVALID_TIME_FORMAT := by
  unfold validateTime
  split
  · split
    · split_ifs <;> simp
    · simp
  · simp

/-- Modelled from the spec: openAt validation of the list operation (the
service module is absent from the sources). A malformed openAt raises an
ApiException with status 400 and the InvalidTimeFormat code, which the global
filter then surfaces; the end-to-end suite observes status 400 and code 0104
for openAt=25:00. -/
def openAtSurfaced (t : String) : Option (Nat × ApiErrorResponse) :=
  match validateTime t with
  | Except.ok _ => none
  | Except.error c =>
      some (catchFilter (.api 400 c "openAt must be in HH:MM format with valid time (00:00-23:59)"))

/-- Modelled from the spec: time-field validation of creation and update (their
DTO modules are absent from the sources). There the check runs in the
framework validation pipe, whose rejection reaches the filter as a plain 400
HttpException with the DTO message array; the end-to-end suite observes status
400 and code 0103 for openHour=25:00 at creation and at update. -/
def createTimeSurfaced (t : String) : Option (Nat × ApiErrorResponse) :=
  match validateTime t with
  | Except.ok _ => none
  | Except.error _ =>
      some (catchFilter
        (.http 400 (.arr ["openHour must be in HH:MM format with valid time (00:00-23:59)"])))

/-- Counterexample to claim C2 as stated: at creation (and update) an invalid
time such as 25:00 is surfaced with code 0103, not with InvalidTimeFormat 0104,
because the rejection comes from the request-validation layer and the global
filter maps every 400 HttpException to 0103. -/
theorem c2_creation_code_cex :
    (createTimeSurfaced "25:00").map (fun p => p.2.header.err_code) =
      some (some INVALID_PARAMETER_FORMAT)
  ∧ INVALID_PARAMETER_FORMAT ≠ INVALID_TIME_FORMAT := by
  refine ⟨by decide, by decide⟩

/-- Claim C2 as amended: validateTime succeeds exactly on HH:MM strings with HH
in 00-23 and MM in 00-59 and fails with InvalidTimeFormat (0104) otherwise;
25:00 fails, 10:00 succeeds; the openAt query filter surfaces the failure as
0104, while creation and update surface it as 0103 through the
request-validation layer. -/
theorem c2_time_validation :
    (∀ s : String, validateTime s = Except.ok s ↔ timeSpec s)
  ∧ (∀ s : String,
      validateTime s = Except.ok s ∨ validateTime s = Except.error INVALID_TIME_FORMAT)
  ∧ validateTime "25:00" = Except.error INVALID_TIME_FORMAT
  ∧ validateTime "10:00" = Except.ok "10:00"
  ∧ (openAtSurfaced "25:00").map (fun p => (p.1, p.2.header.err_code)) =
      some (400, some INVALID_TIME_FORMAT)
  ∧ (createTimeSurfaced "25:00").map (fun p => (p.1, p.2.header.err_code)) =
      some (400, some INVALID_PARAMETER_FORMAT) := by
  refine ⟨validateTime_ok_iff, validateTime_ok_or, by rfl, by rfl, by decide, by decide⟩

/-- Modelled from the spec: validatePagination of the validator set (the
validator module is absent from the sources). Fails with
InvalidParameterValue (0103) unless page is at least 1 and limit lies in
1..200; the end-to-end suite observes code 0103 for page=0 and for limit=999. -/
def validatePagination (page limit : Int) : Except String (Int × Int) :=
  if page < 1 ∨ limit < 1 ∨ limit > 200 then Except.error INVALID_PARAMETER_FORMAT
  else Except.ok (page, limit)

/-- Modelled from the spec: the paginator offset for a validated page and limit. -/
def pageOffset (page limit : Nat) : Nat := (page - 1) * limit

/-- Modelled from the spec: the paginator page count, the ceiling of
total / limit (0 when total = 0). -/
def totalPagesOf (total limit : Nat) : Nat := (total + limit - 1) / limit

/-- Modelled from the spec: the meta block the paginator attaches to list
responses. -/
def buildMeta (page limit total : Nat) : PageMeta :=
  { total := total, page := page, limit := limit, totalPages := totalPagesOf total limit }

/-- Claim C6: the paginator computes offset = (page-1)*limit and totalPages =
ceil(total/limit) — the least k with total ≤ k*limit — with totalPages = 0 when
total = 0, so total=72 with limit=20 gives totalPages=4; and validatePagination
fails with InvalidParameterValue 0103 exactly when page < 1 or limit lies
outside 1..200, so page=0 and limit=999 both fail with 0103. -/
theorem c6_paginator :
    (∀ page limit : Int,
      validatePagination page limit = Except.error INVALID_PARAMETER_FORMAT ↔
        (page < 1 ∨ limit < 1 ∨ limit > 200))
  ∧ (∀ page limit : Nat, pageOffset page limit = (page - 1) * limit)
  ∧ (∀ total limit : Nat, (buildMeta 1 limit total).totalPages = total ⌈/⌉ limit)
  ∧ (∀ total limit k : Nat, 0 < limit →
      (totalPagesOf total limit ≤ k ↔ total ≤ limit * k))
  ∧ (∀ limit : Nat, totalPagesOf 0 limit = 0)
  ∧ (buildMeta 1 20 72).totalPages = 4
  ∧ validatePagination 0 20 = Except.error INVALID_PARAMETER_FORMAT
  ∧ validatePagination 1 999 = Except.error INVALID_PARAMETER_FORMAT := by
  refine ⟨?_, ?_, ?_, ?_, ?_, by decide, by rfl, by rfl⟩
  · intro page limit
    unfold validatePagination
    split_ifs with h
    · simp [h]
    · simp [h]
  · intro page limit
    rfl
  · intro total limit
    rfl
  · intro total limit k h
    have : totalPagesOf total limit = total ⌈/⌉ limit := rfl
    rw [this, ceilDiv_le_iff_le_smul h, smul_eq_mul]
  · intro limit
    cases limit with
    | zero => rfl
    | succ n =>
        unfold totalPagesOf
        exact Nat.div_eq_of_lt (by omega)

/-- Language codes of single-language projections. -/
inductive Lang where
  | en
  | tc
  | sc
deriving DecidableEq

/-- Language-grouped field: one logical attribute stored as three parallel
columns; an absent column is the empty string. -/
structure LangGroup where
  en : String
  tc : String
  sc : String
deriving DecidableEq

/-- JavaScript `a || b` on plain strings: an empty string falls back. -/
def strOr (a b : String) : String := if a = "" then b else a

/-- Column of the group the request's language selects. -/
def reqVal : Lang → LangGroup → String
  | .en, g => g.en
  | .tc, g => g.tc
  | .sc, g => g.sc

/-- Modelled from the spec: the Language Resolver fallback chain (the resolver
module is absent from the sources) — the requested-language value, else the
English value, else the empty string. -/
def resolveField (l : Lang) (g : LangGroup) : String :=
  strOr (reqVal l g) (strOr g.en "")

/-- Core entity (mobile-post.entity.ts is absent from the sources; fields per
the data model of the design document and the README schema). -/
structure MobilePostRecord where
  id : Nat
  mobileCode : Option String
  seq : Option Int
  name : LangGroup
  district : LangGroup
  location : LangGroup
  address : LangGroup
  openHour : String
  closeHour : String
  dayOfWeekCode : Nat
deriving DecidableEq

/-- Display projection for a single-language request: only the resolved scalar
fields plus the language-neutral fields. -/
structure DisplayProjection where
  id : Nat
  name : String
  district : String
  location : String
  address : String
  openHour : String
  closeHour : String
  dayOfWeekCode : Nat
deriving DecidableEq

/-- Modelled from the spec: the single-language projection the Language
Resolver produces. -/
def resolveRecord (l : Lang) (r : MobilePostRecord) : DisplayProjection :=
  { id := r.id
    name := resolveField l r.name
    district := resolveField l r.district
    location := resolveField l r.location
    address := resolveField l r.address
    openHour := r.openHour
    closeHour := r.closeHour
    dayOfWeekCode := r.dayOfWeekCode }

/-- Claim C4: for every record and each single-language code en, tc, sc, each
language-grouped field resolves to the requested language's value when that
value is non-empty, else to the English value, else to the empty string; the
fallback never cascades beyond English, an empty English value yields the
empty string rather than an error, and with nameEN = X and empty nameTC a tc
request resolves name = X. -/
theorem c4_language_fallback :
    (∀ (l : Lang) (g : LangGroup),
      resolveField l g =
        if reqVal l g ≠ "" then reqVal l g else if g.en ≠ "" then g.en else "")
  ∧ (∀ (l : Lang) (g : LangGroup),
      resolveField l g = reqVal l g ∨ resolveField l g = g.en ∨ resolveField l g = "")
  ∧ (∀ (l : Lang) (g : LangGroup), reqVal l g = "" → g.en = "" → resolveField l g = "")
  ∧ (∀ (l : Lang) (r : MobilePostRecord),
        (resolveRecord l r).name = resolveField l r.name
      ∧ (resolveRecord l r).district = resolveField l r.district
      ∧ (resolveRecord l r).location = resolveField l r.location
      ∧ (resolveRecord l r).address = resolveField l r.address)
  ∧ resolveField .tc { en := "X", tc := "", sc := "" } = "X" := by
  refine ⟨?_, ?_, ?_, ?_, by rfl⟩
  · intro l g
    unfold resolveField strOr
    split_ifs <;> simp_all
  · intro l g
    unfold resolveField strOr
    split_ifs <;> simp_all
  · intro l g h1 h2
    simp [resolveField, strOr, h1, h2]
  · intro l r
    exact ⟨rfl, rfl, rfl, rfl⟩

/-- Modelled from the spec: the ordering the Sort Resolver hands to storage for
an ascending sort — the chosen key first, ties broken by ascending id. -/
def recKeyLE {K : Type} [LinearOrder K] (f : MobilePostRecord → K)
    (a b : MobilePostRecord) : Prop :=
  f a < f b ∨ (f a = f b ∧ a.id ≤ b.id)

instance recKeyLE.decidable {K : Type} [LinearOrder K] (f : MobilePostRecord → K) :
    DecidableRel (recKeyLE f) := fun a b => by
  unfold recKeyLE
  infer_instance

instance recKeyLE.total {K : Type} [LinearOrder K] (f : MobilePostRecord → K) :
    IsTotal MobilePostRecord (recKeyLE f) := by
  constructor
  intro a b
  rcases lt_trichotomy (f a) (f b) with h | h | h
  · exact Or.inl (Or.inl h)
  · rcases le_total a.id b.id with hi | hi
    · exact Or.inl (Or.inr ⟨h, hi⟩)
    · exact Or.inr (Or.inr ⟨h.symm, hi⟩)
  · exact Or.inr (Or.inl h)

instance recKeyLE.trans {K : Type} [LinearOrder K] (f : MobilePostRecord → K) :
    IsTrans MobilePostRecord (recKeyLE f) := by
  constructor
  intro a b c hab hbc
  rcases hab with h1 | ⟨h1, hi1⟩ <;> rcases hbc with h2 | ⟨h2, hi2⟩
  · exact Or.inl (h1.trans h2)
  · exact Or.inl (h2 ▸ h1)
  · exact Or.inl (h1 ▸ h2)
  · exact Or.inr ⟨h1.trans h2, hi1.trans hi2⟩

/-- Modelled from the spec: ascending sort on the resolved key, ties broken by
ascending id, as the storage collaborator must order list results. -/
def sortRecords {K : Type} [LinearOrder K] (f : MobilePostRecord → K)
    (l : List MobilePostRecord) : List MobilePostRecord :=
  List.insertionSort (recKeyLE f) l

/-- Physical sort key of sortBy=openHour (HH:MM strings compare like times). -/
def openHourKey (r : MobilePostRecord) : String := r.openHour

/-- Claim C7: sorting by openHour ascending returns a permutation of the result
set whose openHour values are non-decreasing, and for every sort key, records
with equal key values appear in ascending id order, so the order is stable and
reproducible across pages. -/
theorem c7_sort_determinism :
    (∀ l : List MobilePostRecord,
      (sortRecords openHourKey l).Pairwise
        (fun a b => a.openHour ≤ b.openHour ∧ (a.openHour = b.openHour → a.id ≤ b.id)))
  ∧ (∀ l : List MobilePostRecord, (sortRecords openHourKey l).Perm l)
  ∧ (∀ (K : Type) (linK : LinearOrder K) (f : MobilePostRecord → K)
        (l : List MobilePostRecord),
      (@sortRecords K linK f l).Pairwise (fun a b => f a = f b → a.id ≤ b.id)) := by
  refine ⟨?_, ?_, ?_⟩
  · intro l
    have hs : (sortRecords openHourKey l).Pairwise (recKeyLE openHourKey) :=
      List.sorted_insertionSort (recKeyLE openHourKey) l
    refine hs.imp ?_
    intro a b hab
    rcases hab with h | ⟨h, hi⟩
    · exact ⟨le_of_lt h, fun he => absurd he (ne_of_lt h)⟩
    · exact ⟨le_of_eq h, fun _ => hi⟩
  · intro l
    exact List.perm_insertionSort (recKeyLE openHourKey) l
  · intro K linK f l
    have hs : (@sortRecords K linK f l).Pairwise (@recKeyLE K linK f) :=
      List.sorted_insertionSort (@recKeyLE K linK f) l
    refine hs.imp ?_
    intro a b hab
    rcases hab with h | ⟨h, hi⟩
    · exact fun he => absurd he (ne_of_lt h)
    · exact fun _ => hi

/-- Modelled from the spec: a loosely-typed input row consumed by the Import
Pipeline (import-data.ts is absent from the sources; fields per the data model
of the design document). -/
structure ImportRow where
  mobileCode : Option String
  seq : Option Int
  nameEN : Option String
  nameTC : Option String
  nameSC : Option String
  districtEN : Option String
  districtTC : Option String
  districtSC : Option String
  openHour : Option String
  closeHour : Option String
  dayOfWeekCode : Option Int
  latitude : Option ℚ
  longitude : Option ℚ
deriving DecidableEq

/-- Time validator applied to a field only when present. -/
def optTimeOk : Option String → Bool
  | none => true
  | some t =>
      match validateTime t with
      | Except.ok _ => true
      | Except.error _ => false

/-- Modelled from the spec: validateDayOfWeek — an integer in 1..7, applied
only when present. -/
def optDayOk : Option Int → Bool
  | none => true
  | some n => decide (1 ≤ n ∧ n ≤ 7)

/-- Modelled from the spec: validateCoordinates — both present together or
both absent, each within its numeric range. -/
def coordsOk : Option ℚ → Option ℚ → Bool
  | none, none => true
  | some la, some lo => decide (-90 ≤ la ∧ la ≤ 90 ∧ -180 ≤ lo ∧ lo ≤ 180)
  | _, _ => false

/-- Whether an optional text field is present and non-empty. -/
def optNonEmpty : Option String → Bool
  | none => false
  | some s => !s.isEmpty

/-- Modelled from the spec: the per-row validator set the Import Pipeline runs —
time formats, day-of-week range, the coordinate pair, and the required groups
(at least one name and at least one district non-empty). -/
def rowValid (r : ImportRow) : Bool :=
  optTimeOk r.openHour && optTimeOk r.closeHour && optDayOk r.dayOfWeekCode &&
  coordsOk r.latitude r.longitude &&
  (optNonEmpty r.nameEN || optNonEmpty r.nameTC || optNonEmpty r.nameSC) &&
  (optNonEmpty r.districtEN || optNonEmpty r.districtTC || optNonEmpty r.districtSC)

/-- Normalisation applied to dedup-key text fields. -/
def normTxt (s : String) : String := s.trim.toLower

/-- Modelled from the spec: the dedup key — (mobileCode, seq) when both are
present, else the normalized (nameEN, districtEN, openHour, dayOfWeekCode)
tuple. -/
inductive DedupKey where
  | codeSeq (mobileCode : String) (seq : Int)
  | tupleKey (nameEN districtEN openHour : Option String) (day : Option Int)
deriving DecidableEq

/-- Dedup key of a row. -/
def dedupKey (r : ImportRow) : DedupKey :=
  match r.mobileCode, r.seq with
  | some mc, some s => .codeSeq mc s
  | _, _ =>
      .tupleKey (r.nameEN.map normTxt) (r.districtEN.map normTxt) r.openHour r.dayOfWeekCode

/-- One entry per rejected or flagged input row: source row index and reason. -/
structure ImportIrregularity where
  sourceIndex : Nat
  reason : String
deriving DecidableEq

/-- Write-once report of one import run. -/
structure ImportReport where
  imported : Nat
  skipped : Nat
  duplicate : Nat
  irregularities : List ImportIrregularity
deriving DecidableEq

/-- Running state of one import run: next source index, rows accepted so far,
and the tallies. -/
structure ImportState where
  idx : Nat
  accepted : List ImportRow
  skipped : Nat
  duplicate : Nat
  irregularities : List ImportIrregularity
deriving DecidableEq

/-- Modelled from the spec: processing of one input row — validate, check the
dedup key against already-persisted keys and rows accepted earlier in the same
batch (first occurrence wins), and either accept the row or record an
irregularity and skip it. -/
def importStep (storeKeys : List DedupKey) (st : ImportState) (r : ImportRow) : ImportState :=
  if rowValid r = false then
    { st with
        idx := st.idx + 1
        skipped := st.skipped + 1
        irregularities := st.irregularities ++ [⟨st.idx, "validation"⟩] }
  else if dedupKey r ∈ storeKeys ∨ dedupKey r ∈ st.accepted.map dedupKey then
    { st with
        idx := st.idx + 1
        duplicate := st.duplicate + 1
        irregularities := st.irregularities ++ [⟨st.idx, "duplicate"⟩] }
  else
    { st with idx := st.idx + 1, accepted := st.accepted ++ [r] }

/-- Initial state of an import run. -/
def initState : ImportState := ⟨0, [], 0, 0, []⟩

/-- Modelled from the spec: one run of the Import Pipeline over a batch against
a stored state — rows are processed sequentially, surviving rows are persisted,
and the final report tallies imported, skipped and duplicate rows. -/
def runImport (store batch : List ImportRow) : List ImportRow × ImportReport :=
  let st := batch.foldl (importStep (store.map dedupKey)) initState
  (store ++ st.accepted, ⟨st.accepted.length, st.skipped, st.duplicate, st.irregularities⟩)

theorem importStep_accepted_sub (K : List DedupKey) (st : ImportState) (r : ImportRow) :
    ∃ t, (importStep K st r).accepted = st.accepted ++ t := by
  unfold importStep
  split_ifs
  · exact ⟨[], by simp⟩
  · exact ⟨[], by simp⟩
  · exact ⟨[r], rfl⟩

theorem foldl_accepted_sub (K : List DedupKey) (rows : List ImportRow) :
    ∀ st : ImportState, ∃ t, (rows.foldl (importStep K) st).accepted = st.accepted ++ t := by
  induction rows with
  | nil => exact fun st => ⟨[], by simp⟩
  | cons x rest ih =>
      intro st
      obtain ⟨t1, h1⟩ := importStep_accepted_sub K st x
      obtain ⟨t2, h2⟩ := ih (importStep K st x)
      exact ⟨t1 ++ t2, by rw [List.foldl_cons, h2, h1, List.append_assoc]⟩

theorem foldl_key_covered (K : List DedupKey) (rows : List ImportRow) :
    ∀ (st : ImportState) (r : ImportRow), r ∈ rows → rowValid r = true →
      dedupKey r ∈ K ∨
      dedupKey r ∈ (rows.foldl (importStep K) st).accepted.map dedupKey := by
  induction rows with
  | nil =>
      intro st r hr
      cases hr
  | cons x rest ih =>
      intro st r hr hv
      rcases List.mem_cons.mp hr with rfl | hmem
      · by_cases hk : dedupKey r ∈ K ∨ dedupKey r ∈ st.accepted.map dedupKey
        · rcases hk with h | h
          · exact Or.inl h
          · right
            obtain ⟨t1, h1⟩ := importStep_accepted_sub K st r
            obtain ⟨t2, h2⟩ := foldl_accepted_sub K rest (importStep K st r)
            rw [List.foldl_cons, h2, h1]
            simp only [List.map_append, List.mem_append]
            exact Or.inl (Or.inl h)
        · right
          have hstep : (importStep K st r).accepted = st.accepted ++ [r] := by
            unfold importStep
            rw [if_neg (by simp [hv]), if_neg hk]
          obtain ⟨t2, h2⟩ := foldl_accepted_sub K rest (importStep K st r)
          rw [List.foldl_cons, h2, hstep]
          simp
      · rw [List.foldl_cons]
        exact ih (importStep K st x) r hmem hv

theorem foldl_all_covered (K : List DedupKey) (rows : List ImportRow)
    (h : ∀ r ∈ rows, rowValid r = true → dedupKey r ∈ K) :
    ∀ st : ImportState,
      (rows.foldl (importStep K) st).accepted = st.accepted
    ∧ (rows.foldl (importStep K) st).duplicate =
        st.duplicate + (rows.filter rowValid).length
    ∧ (rows.foldl (importStep K) st).skipped =
        st.skipped + (rows.filter (fun r => !rowValid r)).length := by
  induction rows with
  | nil => intro st; simp
  | cons x rest ih =>
      intro st
      have hrest := ih (fun r hr hv => h r (List.mem_cons_of_mem x hr) hv)
      by_cases hv : rowValid x = true
      · have hk : dedupKey x ∈ K := h x (List.mem_cons_self x rest) hv
        have hstep : importStep K st x =
            { st with
                idx := st.idx + 1
                duplicate := st.duplicate + 1
                irregularities := st.irregularities ++ [⟨st.idx, "duplicate"⟩] } := by
          unfold importStep
          rw [if_neg (by simp [hv]), if_pos (Or.inl hk)]
        obtain ⟨ha, hd, hs⟩ := hrest ({ st with
                idx := st.idx + 1
                duplicate := st.duplicate + 1
                irregularities := st.irregularities ++ [⟨st.idx, "duplicate"⟩] })
        rw [List.foldl_cons, hstep]
        refine ⟨ha, ?_, ?_⟩
        · rw [hd]
          simp [List.filter_cons, hv]
          omega
        · rw [hs]
          simp [List.filter_cons, hv]
      · have hstep : importStep K st x =
            { st with
                idx := st.idx + 1
                skipped := st.skipped + 1
                irregularities := st.irregularities ++ [⟨st.idx, "validation"⟩] } := by
          unfold importStep
          rw [if_pos (by simpa using hv)]
        obtain ⟨ha, hd, hs⟩ := hrest ({ st with
                idx := st.idx + 1
                skipped := st.skipped + 1
                irregularities := st.irregularities ++ [⟨st.idx, "validation"⟩] })
        rw [List.foldl_cons, hstep]
        refine ⟨ha, ?_, ?_⟩
        · rw [hd]
          simp [List.filter_cons, hv]
        · rw [hs]
          simp [List.filter_cons, hv]
          omega

/-- Claim C3 as amended: re-running the Import Pipeline on an identical batch
against the state the first run produced persists zero new rows, and the
second-run report has imported = 0 and a duplicate count equal to the number of
batch rows that pass validation (the whole batch size when every row is
valid); rows failing validation are skipped again, not counted duplicate. -/
theorem c3_import_idempotent (store batch : List ImportRow) :
    (runImport (runImport store batch).1 batch).1 = (runImport store batch).1
  ∧ (runImport (runImport store batch).1 batch).2.imported = 0
  ∧ (runImport (runImport store batch).1 batch).2.duplicate =
      (batch.filter rowValid).length := by
  have hcov : ∀ r ∈ batch, rowValid r = true →
      dedupKey r ∈ ((runImport store batch).1.map dedupKey) := by
    intro r hr hv
    have := foldl_key_covered (store.map dedupKey) batch initState r hr hv
    simp only [runImport, List.map_append, List.mem_append]
    exact this
  have hall := foldl_all_covered ((runImport store batch).1.map dedupKey) batch hcov initState
  obtain ⟨ha, hd, _⟩ := hall
  refine ⟨?_, ?_, ?_⟩
  · show (runImport store batch).1 ++
        (batch.foldl (importStep ((runImport store batch).1.map dedupKey)) initState).accepted =
      (runImport store batch).1
    rw [ha]
    simp [initState]
  · show (batch.foldl (importStep ((runImport store batch).1.map dedupKey)) initState).accepted.length = 0
    rw [ha]
    simp [initState]
  · show (batch.foldl (importStep ((runImport store batch).1.map dedupKey)) initState).duplicate =
      (batch.filter rowValid).length
    rw [hd]
    simp [initState]

/-- Input row that fails validation: no name and no district field present. -/
def badRow : ImportRow :=
  { mobileCode := none
    seq := none
    nameEN := none
    nameTC := none
    nameSC := none
    districtEN := none
    districtTC := none
    districtSC := none
    openHour := none
    closeHour := none
    dayOfWeekCode := none
    latitude := none
    longitude := none }

/-- Counterexample to claim C3 as stated: for the one-row batch whose row fails
validation, the second run reports duplicate = 0, not the batch size 1 — an
invalid row is skipped again on the second run, never counted as a
duplicate. -/
theorem c3_duplicate_count_cex :
    (runImport (runImport [] [badRow]).1 [badRow]).2.duplicate = 0
  ∧ ([badRow] : List ImportRow).length = 1
  ∧ ¬ ((runImport (runImport [] [badRow]).1 [badRow]).2.duplicate =
        ([badRow] : List ImportRow).length) := by
  refine ⟨by rfl, by rfl, by decide⟩

end MobilePostOffice
